import Mathlib

/-!
Shallow embedding of the OTP issuance-and-verification core of the
astro-server repository (src/auth/services/otp_service.py,
src/auth/services/auth_service.py, src/auth/services/email_service.py,
src/auth/model.py, src/config.py).

The database is modelled as a list of OTP records in insertion order;
commits mutate the list in place (replacement keyed by primary key `id`).
Wall-clock time is an explicit `Nat` parameter (`datetime.utcnow()`), the
entropy source of `_generate_otp` is an explicit plaintext parameter, and
SHA-256 is an abstract digest function `hash : String → String` over which
the theorems quantify.
-/

namespace AstroServer

/-- `OTPCode` from src/auth/model.py: one issued one-time code.
`otp` stores the digest, never the plaintext. -/
structure OTPRecord where
  id : Nat
  email : String
  otp : String
  expires_at : Nat
  attempts : Nat
  is_used : Bool
  created_at : Nat
deriving DecidableEq, Repr

/-- The OTP-relevant fields of `Settings` from src/config.py, with the
defaults declared there. `bypass_otp_validation` is carried because
config.py declares it (lines 35-37). -/
structure Settings where
  otp_length : Nat := 6
  otp_expire_minutes : Nat := 10
  otp_max_attempts : Nat := 5
  bypass_otp_validation : Bool := false
deriving DecidableEq, Repr

/-- The default configuration of src/config.py. -/
def defaultSettings : Settings := {}

/-- Errors the storage layer can raise on fetch:
`sqlalchemy` raises `MultipleResultsFound` from `scalar_one_or_none()`
when the statement yields more than one row. -/
inductive DBError where
  | multipleResultsFound
deriving DecidableEq, Repr

/-- The filter of both queries in otp_service.py:
`and_(OTPCode.email == email, OTPCode.is_used == False)`. -/
def isUnusedFor (email : String) (r : OTPRecord) : Bool :=
  r.email == email && r.is_used == false

/-- `result.scalar_one_or_none()` on the verify query of
`OTPService.verify_otp`: zero rows give `none`, one row gives that row,
two or more raise `MultipleResultsFound`.  The query orders by
`created_at` descending, which only matters when one row is returned,
so the order does not influence the embedded result. -/
def fetchUnused (db : List OTPRecord) (email : String) :
    Except DBError (Option OTPRecord) :=
  match db.filter (isUnusedFor email) with
  | [] => .ok none
  | [r] => .ok (some r)
  | _ :: _ :: _ => .error .multipleResultsFound

/-- A committed in-place mutation of one ORM row: every stored row with
the record's primary key is replaced by the updated record. -/
def updateRecord (db : List OTPRecord) (r : OTPRecord) : List OTPRecord :=
  db.map (fun x => if x.id == r.id then r else x)

/-- `OTPService._invalidate_previous_otps`: every unused record for this
email is marked used and committed. -/
def _invalidate_previous_otps (db : List OTPRecord) (email : String) :
    List OTPRecord :=
  db.map (fun r => if isUnusedFor email r then { r with is_used := true } else r)

/-- `OTPService.create_otp`: invalidate previous codes, then insert a new
record with the digest of the generated plaintext, expiry `now + TTL`,
`attempts = 0`, `is_used = false`.  `plain_otp` stands for the output of
`_generate_otp` (the entropy source) and `new_id` for the fresh primary
key `uuid4()`.  Returns `((record, plaintext), new database)`. -/
def create_otp (s : Settings) (hash : String → String) (db : List OTPRecord)
    (email : String) (now : Nat) (plain_otp : String) (new_id : Nat) :
    (OTPRecord × String) × List OTPRecord :=
  let db1 := _invalidate_previous_otps db email
  let otp_record : OTPRecord :=
    { id := new_id
      email := email
      otp := hash plain_otp
      expires_at := now + s.otp_expire_minutes
      attempts := 0
      is_used := false
      created_at := now }
  ((otp_record, plain_otp), db1 ++ [otp_record])

/-- Outcome of one call of `OTPService.verify_otp`: the pair
`(is_valid, error_message)` returned to the caller, together with the
database state after the commits the call performed. -/
structure VerifyResult where
  ok : Bool
  msg : Option String
  db : List OTPRecord
deriving DecidableEq, Repr

deriving instance DecidableEq for Except

/-- `OTPService.verify_otp`, line for line:
fetch the unused record, then the decision table — no record / expired /
attempts already at maximum / increment-then-compare. -/
def verify_otp (s : Settings) (hash : String → String) (db : List OTPRecord)
    (email : String) (plain_otp : String) (now : Nat) :
    Except DBError VerifyResult :=
  match fetchUnused db email with
  | .error e => .error e
  | .ok none => .ok ⟨false, some "No valid OTP found for this email", db⟩
  | .ok (some otp_record) =>
    if otp_record.expires_at < now then
      .ok ⟨false, some "OTP has expired",
        updateRecord db { otp_record with is_used := true }⟩
    else if s.otp_max_attempts ≤ otp_record.attempts then
      .ok ⟨false, some "Maximum verification attempts exceeded",
        updateRecord db { otp_record with is_used := true }⟩
    else
      let r1 := { otp_record with attempts := otp_record.attempts + 1 }
      let db1 := updateRecord db r1
      if hash plain_otp == r1.otp then
        .ok ⟨true, none, updateRecord db1 { r1 with is_used := true }⟩
      else
        let remaining := s.otp_max_attempts - r1.attempts
        if remaining > 0 then
          .ok ⟨false,
            some ("Invalid OTP. " ++ toString remaining ++ " attempts remaining"),
            db1⟩
        else
          .ok ⟨false, some "Invalid OTP. Maximum attempts exceeded",
            updateRecord db1 { r1 with is_used := true }⟩

/-- The possible outcomes of the SMTP sending attempt inside
`EmailService.send_otp_email`, one per `except` clause of that method
(src/auth/services/email_service.py lines 149-163) plus success. -/
inductive SmtpOutcome where
  | sent
  | timeout
  | authError
  | smtpError
  | networkError
  | otherError
deriving DecidableEq, Repr

/-- `EmailService.send_otp_email`: the entire body is one `try` block;
every failure class is caught and turned into `False`, success returns
`True`.  No exception escapes. -/
def send_otp_email (outcome : SmtpOutcome) : Bool :=
  match outcome with
  | .sent => true
  | .timeout => false
  | .authError => false
  | .smtpError => false
  | .networkError => false
  | .otherError => false

/-- `AuthService.send_otp`: create the OTP, then hand the plaintext to the
email collaborator; on delivery failure report failure without rolling the
created record back. -/
def send_otp (s : Settings) (hash : String → String) (db : List OTPRecord)
    (email : String) (now : Nat) (plain_otp : String) (new_id : Nat)
    (outcome : SmtpOutcome) :
    (Bool × Option String × Option Nat) × List OTPRecord :=
  let created := create_otp s hash db email now plain_otp new_id
  let email_sent := send_otp_email outcome
  if email_sent = false then
    ((false, some "Failed to send OTP email", none), created.2)
  else
    ((true, none, some s.otp_expire_minutes), created.2)

/-- Database state after `n` consecutive `verify_otp` calls with the same
candidate plaintext (the per-call results are stated separately). -/
def afterCalls (s : Settings) (hash : String → String) (email : String)
    (plain_otp : String) (now : Nat) :
    Nat → List OTPRecord → Except DBError (List OTPRecord)
  | 0, db => .ok db
  | Nat.succ n, db =>
    match verify_otp s hash db email plain_otp now with
    | .error e => .error e
    | .ok res => afterCalls s hash email plain_otp now n res.db

/-- The single active record during a run of wrong-code calls against a
record `r`: after `a` of them it carries `attempts = a` and is used
exactly when the configured maximum `m` has been reached. -/
def runRec (r : OTPRecord) (m a : Nat) : OTPRecord :=
  { r with attempts := a, is_used := decide (m ≤ a) }

/-! ### Helper lemmas about the storage layer -/

lemma isUnusedFor_invalidate_elem (email : String) (r : OTPRecord) :
    isUnusedFor email
      (if isUnusedFor email r then { r with is_used := true } else r) = false := by
  cases h : isUnusedFor email r
  · simp [h]
  · simp [h, isUnusedFor]

lemma invalidate_elem (email : String) (db : List OTPRecord) :
    ∀ x ∈ _invalidate_previous_otps db email, isUnusedFor email x = false := by
  intro x hx
  simp only [_invalidate_previous_otps, List.mem_map] at hx
  obtain ⟨y, _, rfl⟩ := hx
  exact isUnusedFor_invalidate_elem email y

lemma invalidate_filter (email : String) (db : List OTPRecord) :
    (_invalidate_previous_otps db email).filter (isUnusedFor email) = [] := by
  refine List.filter_eq_nil_iff.mpr ?_
  intro x hx
  simp [invalidate_elem email db x hx]

lemma invalidate_id (email : String) (db : List OTPRecord) :
    ∀ x ∈ _invalidate_previous_otps db email, ∃ y ∈ db, x.id = y.id := by
  intro x hx
  simp only [_invalidate_previous_otps, List.mem_map] at hx
  obtain ⟨y, hy, rfl⟩ := hx
  refine ⟨y, hy, ?_⟩
  by_cases h : isUnusedFor email y = true <;> simp [h]

lemma fetchUnused_eq_none (db : List OTPRecord) (email : String)
    (h : ∀ x ∈ db, isUnusedFor email x = false) :
    fetchUnused db email = .ok none := by
  unfold fetchUnused
  rw [List.filter_eq_nil_iff.mpr (by intro x hx; simp [h x hx])]

lemma fetchUnused_eq_some (db : List OTPRecord) (email : String) (r : OTPRecord)
    (h : db.filter (isUnusedFor email) = [r]) :
    fetchUnused db email = .ok (some r) := by
  unfold fetchUnused
  rw [h]

lemma fetchUnused_singleton (r : OTPRecord) (hu : r.is_used = false) :
    fetchUnused [r] r.email = .ok (some r) := by
  refine fetchUnused_eq_some _ _ _ ?_
  simp [isUnusedFor, hu]

lemma updateRecord_singleton (r r' : OTPRecord) (h : r'.id = r.id) :
    updateRecord [r] r' = [r'] := by
  simp [updateRecord, h]

lemma updateRecord_twice (db : List OTPRecord) (r1 r2 : OTPRecord)
    (h : r1.id = r2.id) :
    updateRecord (updateRecord db r1) r2 = updateRecord db r2 := by
  simp only [updateRecord, List.map_map]
  refine List.map_congr_left ?_
  intro x _
  by_cases hx : x.id = r1.id
  · simp [Function.comp, hx, h]
  · have hx2 : ¬ x.id = r2.id := by rw [← h]; exact hx
    simp [Function.comp, hx, hx2]

/-! ### Helper lemmas about `create_otp` -/

lemma create_otp_record (s : Settings) (hash : String → String)
    (db : List OTPRecord) (email : String) (now : Nat) (plain_otp : String)
    (new_id : Nat) :
    (create_otp s hash db email now plain_otp new_id).1.1 =
      { id := new_id, email := email, otp := hash plain_otp,
        expires_at := now + s.otp_expire_minutes, attempts := 0,
        is_used := false, created_at := now } := rfl

lemma create_otp_db (s : Settings) (hash : String → String)
    (db : List OTPRecord) (email : String) (now : Nat) (plain_otp : String)
    (new_id : Nat) :
    (create_otp s hash db email now plain_otp new_id).2 =
      _invalidate_previous_otps db email ++
        [(create_otp s hash db email now plain_otp new_id).1.1] := rfl

lemma fetchUnused_create (s : Settings) (hash : String → String)
    (db : List OTPRecord) (email : String) (now : Nat) (plain_otp : String)
    (new_id : Nat) :
    fetchUnused (create_otp s hash db email now plain_otp new_id).2 email =
      .ok (some (create_otp s hash db email now plain_otp new_id).1.1) := by
  refine fetchUnused_eq_some _ _ _ ?_
  rw [create_otp_db, List.filter_append, invalidate_filter]
  simp [create_otp_record, isUnusedFor]

/-! ### Unfolding lemmas for the branches of `verify_otp` -/

lemma verify_otp_none (s : Settings) (hash : String → String)
    (db : List OTPRecord) (email w : String) (now : Nat)
    (hfetch : fetchUnused db email = .ok none) :
    verify_otp s hash db email w now =
      .ok ⟨false, some "No valid OTP found for this email", db⟩ := by
  unfold verify_otp
  rw [hfetch]

lemma verify_otp_expired (s : Settings) (hash : String → String)
    (db : List OTPRecord) (email w : String) (now : Nat) (r : OTPRecord)
    (hfetch : fetchUnused db email = .ok (some r))
    (hexp : r.expires_at < now) :
    verify_otp s hash db email w now =
      .ok ⟨false, some "OTP has expired",
        updateRecord db { r with is_used := true }⟩ := by
  unfold verify_otp
  rw [hfetch]
  simp [hexp]

lemma verify_otp_maxed (s : Settings) (hash : String → String)
    (db : List OTPRecord) (email w : String) (now : Nat) (r : OTPRecord)
    (hfetch : fetchUnused db email = .ok (some r))
    (hexp : ¬ r.expires_at < now)
    (hmax : s.otp_max_attempts ≤ r.attempts) :
    verify_otp s hash db email w now =
      .ok ⟨false, some "Maximum verification attempts exceeded",
        updateRecord db { r with is_used := true }⟩ := by
  unfold verify_otp
  rw [hfetch]
  simp [hexp, hmax]

lemma verify_otp_match (s : Settings) (hash : String → String)
    (db : List OTPRecord) (email w : String) (now : Nat) (r : OTPRecord)
    (hfetch : fetchUnused db email = .ok (some r))
    (hexp : ¬ r.expires_at < now)
    (hlt : r.attempts < s.otp_max_attempts)
    (hmatch : hash w = r.otp) :
    verify_otp s hash db email w now =
      .ok ⟨true, none,
        updateRecord (updateRecord db { r with attempts := r.attempts + 1 })
          { r with attempts := r.attempts + 1, is_used := true }⟩ := by
  unfold verify_otp
  rw [hfetch]
  simp [hexp, Nat.not_le.mpr hlt, hmatch]

lemma verify_otp_mismatch (s : Settings) (hash : String → String)
    (db : List OTPRecord) (email w : String) (now : Nat) (r : OTPRecord)
    (hfetch : fetchUnused db email = .ok (some r))
    (hexp : ¬ r.expires_at < now)
    (hlt : r.attempts < s.otp_max_attempts)
    (hmatch : ¬ hash w = r.otp) :
    verify_otp s hash db email w now =
      if r.attempts + 1 < s.otp_max_attempts then
        .ok ⟨false,
          some ("Invalid OTP. " ++ toString (s.otp_max_attempts - (r.attempts + 1)) ++
            " attempts remaining"),
          updateRecord db { r with attempts := r.attempts + 1 }⟩
      else
        .ok ⟨false, some "Invalid OTP. Maximum attempts exceeded",
          updateRecord (updateRecord db { r with attempts := r.attempts + 1 })
            { r with attempts := r.attempts + 1, is_used := true }⟩ := by
  unfold verify_otp
  rw [hfetch]
  simp only [hexp, if_false, Nat.not_le.mpr hlt, ite_false, ite_true]
  have hne : (hash w == r.otp) = false := by
    exact beq_eq_false_iff_ne.mpr hmatch
  simp only [hne, Bool.false_eq_true, if_false]
  split_ifs with h1 h2 h3
  · rfl
  · exact absurd (Nat.lt_of_sub_pos h1) h2
  · exact absurd (Nat.sub_pos_of_lt h3) h1
  · rfl

@[simp] lemma runRec_id (r : OTPRecord) (m a : Nat) :
    (runRec r m a).id = r.id := rfl

@[simp] lemma runRec_email (r : OTPRecord) (m a : Nat) :
    (runRec r m a).email = r.email := rfl

@[simp] lemma runRec_otp (r : OTPRecord) (m a : Nat) :
    (runRec r m a).otp = r.otp := rfl

@[simp] lemma runRec_expires_at (r : OTPRecord) (m a : Nat) :
    (runRec r m a).expires_at = r.expires_at := rfl

@[simp] lemma runRec_attempts (r : OTPRecord) (m a : Nat) :
    (runRec r m a).attempts = a := rfl

@[simp] lemma runRec_is_used (r : OTPRecord) (m a : Nat) :
    (runRec r m a).is_used = decide (m ≤ a) := rfl

lemma runRec_step_lt (r : OTPRecord) (m a : Nat) (h : a + 1 < m) :
    ({ runRec r m a with attempts := a + 1 } : OTPRecord) = runRec r m (a + 1) := by
  simp only [runRec, OTPRecord.mk.injEq, and_true, true_and]
  exact decide_eq_decide.mpr (by omega)

lemma runRec_step_last (r : OTPRecord) (m a : Nat) (h : a + 1 = m) :
    ({ runRec r m a with attempts := a + 1, is_used := true } : OTPRecord) =
      runRec r m (a + 1) := by
  simp only [runRec, OTPRecord.mk.injEq, and_true, true_and]
  rw [eq_comm, decide_eq_true_iff]
  omega

lemma verify_wrong_step (s : Settings) (hash : String → String) (w : String)
    (now : Nat) (r : OTPRecord) (hexp : ¬ r.expires_at < now)
    (hw : hash w ≠ r.otp) (a : Nat) (ha : a < s.otp_max_attempts) :
    verify_otp s hash [runRec r s.otp_max_attempts a] r.email w now =
      .ok ⟨false,
        some (if a + 1 < s.otp_max_attempts
          then "Invalid OTP. " ++ toString (s.otp_max_attempts - (a + 1)) ++
            " attempts remaining"
          else "Invalid OTP. Maximum attempts exceeded"),
        [runRec r s.otp_max_attempts (a + 1)]⟩ := by
  have hu : (runRec r s.otp_max_attempts a).is_used = false := by
    simp only [runRec_is_used, decide_eq_false_iff_not]
    omega
  have hfetch : fetchUnused [runRec r s.otp_max_attempts a] r.email =
      .ok (some (runRec r s.otp_max_attempts a)) :=
    fetchUnused_singleton (runRec r s.otp_max_attempts a) hu
  rw [verify_otp_mismatch s hash _ r.email w now _ hfetch
    (show ¬ r.expires_at < now from hexp)
    (show a < s.otp_max_attempts from ha)
    (show ¬ hash w = r.otp from hw)]
  simp only [runRec_attempts]
  split_ifs with h1
  · rw [updateRecord_singleton (runRec r s.otp_max_attempts a)
      { runRec r s.otp_max_attempts a with attempts := a + 1 } rfl]
    rw [runRec_step_lt r s.otp_max_attempts a h1]
  · rw [updateRecord_singleton (runRec r s.otp_max_attempts a)
      { runRec r s.otp_max_attempts a with attempts := a + 1 } rfl]
    rw [updateRecord_singleton { runRec r s.otp_max_attempts a with attempts := a + 1 }
      { runRec r s.otp_max_attempts a with attempts := a + 1, is_used := true } rfl]
    rw [runRec_step_last r s.otp_max_attempts a (by omega)]

lemma afterCalls_wrong (s : Settings) (hash : String → String) (w : String)
    (now : Nat) (r : OTPRecord) (hexp : ¬ r.expires_at < now)
    (hw : hash w ≠ r.otp) :
    ∀ k a, a + k ≤ s.otp_max_attempts →
      afterCalls s hash r.email w now k [runRec r s.otp_max_attempts a] =
        .ok [runRec r s.otp_max_attempts (a + k)] := by
  intro k
  induction k with
  | zero => intro a _; rfl
  | succ n ih =>
    intro a ha
    have hstep := verify_wrong_step s hash w now r hexp hw a (by omega)
    simp only [afterCalls, hstep]
    rw [show a + (n + 1) = a + 1 + n from by omega]
    exact ih (a + 1) (by omega)

/-! ### Claim theorems -/

/-- C1, counterexample: the claim demands that with a single unused record
at `attempts = 4`, `max_attempts = 5`, the fifth `verify_otp` call fails
with the attempts-exceeded reason even for the correct code.  On the code,
the pre-check rejects only `attempts ≥ max_attempts`, so at `attempts = 4`
the correct code is accepted: the call succeeds. -/
theorem verify_fifth_attempt_correct_code_succeeds :
    verify_otp defaultSettings (fun x => x)
      [⟨0, "a@x.com", "123456", 100, 4, false, 0⟩] "a@x.com" "123456" 50 =
      .ok ⟨true, none, [⟨0, "a@x.com", "123456", 100, 5, true, 0⟩]⟩ := by
  decide

/-- C1, amended: for a single unused, unexpired record one attempt short of
the maximum (`attempts + 1 = max_attempts`), the next `verify_otp` call
succeeds when the candidate digest matches, and fails with the
attempts-exceeded mismatch reason and flips `is_used` to `true` when it
does not; in both cases the attempt slot is consumed and the record ends
used. -/
theorem verify_last_attempt_boundary (s : Settings) (hash : String → String)
    (p w : String) (now : Nat) (r : OTPRecord)
    (hu : r.is_used = false) (hexp : ¬ r.expires_at < now)
    (hatt : r.attempts + 1 = s.otp_max_attempts)
    (hp : hash p = r.otp) (hw : hash w ≠ r.otp) :
    verify_otp s hash [r] r.email p now =
      .ok ⟨true, none, [{ r with attempts := r.attempts + 1, is_used := true }]⟩ ∧
    verify_otp s hash [r] r.email w now =
      .ok ⟨false, some "Invalid OTP. Maximum attempts exceeded",
        [{ r with attempts := r.attempts + 1, is_used := true }]⟩ := by
  have hfetch := fetchUnused_singleton r hu
  have hlt : r.attempts < s.otp_max_attempts := by omega
  constructor
  · rw [verify_otp_match s hash [r] r.email p now r hfetch hexp hlt hp]
    rw [updateRecord_singleton r { r with attempts := r.attempts + 1 } rfl]
    rw [updateRecord_singleton { r with attempts := r.attempts + 1 }
      { r with attempts := r.attempts + 1, is_used := true } rfl]
  · rw [verify_otp_mismatch s hash [r] r.email w now r hfetch hexp hlt hw]
    rw [if_neg (by omega)]
    rw [updateRecord_singleton r { r with attempts := r.attempts + 1 } rfl]
    rw [updateRecord_singleton { r with attempts := r.attempts + 1 }
      { r with attempts := r.attempts + 1, is_used := true } rfl]

/-- C1, witness for the amended claim at the claim's own numbers:
`attempts = 4`, `max_attempts = 5`, correct code `"123456"`, wrong code
`"000000"`. -/
theorem verify_last_attempt_boundary_witness :
    verify_otp defaultSettings (fun x => x)
      [⟨0, "a@x.com", "123456", 100, 4, false, 0⟩] "a@x.com" "123456" 50 =
      .ok ⟨true, none, [⟨0, "a@x.com", "123456", 100, 5, true, 0⟩]⟩ ∧
    verify_otp defaultSettings (fun x => x)
      [⟨0, "a@x.com", "123456", 100, 4, false, 0⟩] "a@x.com" "000000" 50 =
      .ok ⟨false, some "Invalid OTP. Maximum attempts exceeded",
        [⟨0, "a@x.com", "123456", 100, 5, true, 0⟩]⟩ :=
  verify_last_attempt_boundary defaultSettings (fun x => x) "123456" "000000" 50
    ⟨0, "a@x.com", "123456", 100, 4, false, 0⟩
    rfl (by decide) rfl rfl (by decide)

/-- C2: `Settings.bypass_otp_validation` exists in the configuration, but
`OTPService.verify_otp` never reads it: the result is identical for every
value of the flag, and at the failing input (flag enabled, wrong candidate
`"000000"` against the digest of `"123456"`) the digest comparison is
still performed and the call fails — the claimed bypass never happens. -/
theorem verify_otp_ignores_bypass_flag :
    (∀ (s : Settings) (b : Bool) (hash : String → String)
      (db : List OTPRecord) (email c : String) (now : Nat),
      verify_otp { s with bypass_otp_validation := b } hash db email c now =
        verify_otp s hash db email c now) ∧
    verify_otp { defaultSettings with bypass_otp_validation := true }
      (fun x => x) [⟨0, "a@x.com", "123456", 100, 0, false, 0⟩]
      "a@x.com" "000000" 50 =
      .ok ⟨false, some "Invalid OTP. 4 attempts remaining",
        [⟨0, "a@x.com", "123456", 100, 1, false, 0⟩]⟩ := by
  constructor
  · intro s b hash db email c now
    rfl
  · decide

/-- C3: when two unused records exist for the same identity,
`scalar_one_or_none()` on the verify query raises `MultipleResultsFound`
instead of defensively picking the most recently created record — the
fetch errors rather than proceeding with the decision table. -/
theorem verify_otp_two_unused_records_errors :
    verify_otp defaultSettings (fun x => x)
      [⟨0, "a@x.com", "123456", 100, 0, false, 0⟩,
       ⟨1, "a@x.com", "654321", 100, 0, false, 5⟩] "a@x.com" "123456" 50 =
      .error .multipleResultsFound := by
  decide

/-- C7: a still-unused record whose expiry lies strictly in the past fails
verification with the expired reason and is marked used, for every
candidate plaintext — including one whose digest matches the stored
digest. -/
theorem verify_expired_record_always_fails (s : Settings)
    (hash : String → String) (w : String) (now : Nat) (r : OTPRecord)
    (hu : r.is_used = false) (hexp : r.expires_at < now) :
    verify_otp s hash [r] r.email w now =
      .ok ⟨false, some "OTP has expired", [{ r with is_used := true }]⟩ := by
  rw [verify_otp_expired s hash [r] r.email w now r (fetchUnused_singleton r hu) hexp]
  rw [updateRecord_singleton r { r with is_used := true } rfl]

/-- C7, witness: an expired record (expiry 10, now 50) rejects even the
correct code `"123456"` with the expired reason and ends used. -/
theorem verify_expired_record_always_fails_witness :
    verify_otp defaultSettings (fun x => x)
      [⟨0, "a@x.com", "123456", 10, 0, false, 0⟩] "a@x.com" "123456" 50 =
      .ok ⟨false, some "OTP has expired",
        [⟨0, "a@x.com", "123456", 10, 0, true, 0⟩]⟩ :=
  verify_expired_record_always_fails defaultSettings (fun x => x) "123456" 50
    ⟨0, "a@x.com", "123456", 10, 0, false, 0⟩ rfl (by decide)

/-- C10: on the already-expired branch and on the attempts-already-at-
maximum branch the record written back differs from the fetched record
only in `is_used`, which becomes `true`; its `attempts` counter and its
stored digest are unchanged (no attempt slot is consumed on these two
failure paths). -/
theorem verify_failure_paths_frame (s : Settings) (hash : String → String)
    (w : String) (now : Nat) (r : OTPRecord) (hu : r.is_used = false) :
    (r.expires_at < now →
      verify_otp s hash [r] r.email w now =
        .ok ⟨false, some "OTP has expired", [{ r with is_used := true }]⟩) ∧
    (¬ r.expires_at < now → s.otp_max_attempts ≤ r.attempts →
      verify_otp s hash [r] r.email w now =
        .ok ⟨false, some "Maximum verification attempts exceeded",
          [{ r with is_used := true }]⟩) ∧
    ({ r with is_used := true } : OTPRecord).attempts = r.attempts ∧
    ({ r with is_used := true } : OTPRecord).otp = r.otp ∧
    ({ r with is_used := true } : OTPRecord).is_used = true := by
  refine ⟨?_, ?_, rfl, rfl, rfl⟩
  · intro hexp
    rw [verify_otp_expired s hash [r] r.email w now r (fetchUnused_singleton r hu) hexp]
    rw [updateRecord_singleton r { r with is_used := true } rfl]
  · intro hexp hmax
    rw [verify_otp_maxed s hash [r] r.email w now r (fetchUnused_singleton r hu) hexp hmax]
    rw [updateRecord_singleton r { r with is_used := true } rfl]

/-- C10, witness: the expired branch (record with expiry 10 at time 50,
`attempts = 2`) and the maxed branch (record with `attempts = 5` at the
default maximum 5) each flip only `is_used`, leaving `attempts` and the
digest as they were. -/
theorem verify_failure_paths_frame_witness :
    verify_otp defaultSettings (fun x => x)
      [⟨0, "a@x.com", "123456", 10, 2, false, 0⟩] "a@x.com" "000000" 50 =
      .ok ⟨false, some "OTP has expired",
        [⟨0, "a@x.com", "123456", 10, 2, true, 0⟩]⟩ ∧
    verify_otp defaultSettings (fun x => x)
      [⟨1, "a@x.com", "123456", 100, 5, false, 0⟩] "a@x.com" "000000" 50 =
      .ok ⟨false, some "Maximum verification attempts exceeded",
        [⟨1, "a@x.com", "123456", 100, 5, true, 0⟩]⟩ :=
  ⟨(verify_failure_paths_frame defaultSettings (fun x => x) "000000" 50
      ⟨0, "a@x.com", "123456", 10, 2, false, 0⟩ rfl).1 (by decide),
   (verify_failure_paths_frame defaultSettings (fun x => x) "000000" 50
      ⟨1, "a@x.com", "123456", 100, 5, false, 0⟩ rfl).2.1 (by decide) (by decide)⟩

lemma fetch_after_update_fresh (s : Settings) (hash : String → String)
    (db : List OTPRecord) (email : String) (now : Nat) (plain_otp : String)
    (new_id : Nat) (r2 : OTPRecord)
    (hid : r2.id = new_id) (hunused : isUnusedFor email r2 = true)
    (hfresh : ∀ y ∈ db, y.id ≠ new_id) :
    fetchUnused
      (updateRecord (create_otp s hash db email now plain_otp new_id).2 r2)
      email = .ok (some r2) := by
  refine fetchUnused_eq_some _ _ _ ?_
  rw [create_otp_db]
  simp only [updateRecord, List.map_append, List.filter_append]
  have h1 : (((_invalidate_previous_otps db email).map
      (fun x => if x.id == r2.id then r2 else x)).filter (isUnusedFor email)) = [] := by
    refine List.filter_eq_nil_iff.mpr ?_
    intro x hx
    simp only [List.mem_map] at hx
    obtain ⟨y, hy, rfl⟩ := hx
    have hyid : ¬ y.id = r2.id := by
      obtain ⟨z, hz, hzid⟩ := invalidate_id email db y hy
      rw [hid, hzid]
      exact hfresh z hz
    simp only [beq_eq_false_iff_ne.mpr hyid, Bool.false_eq_true, if_false]
    simp [invalidate_elem email db y hy]
  rw [h1]
  have h2 : (create_otp s hash db email now plain_otp new_id).1.1.id = r2.id := by
    rw [create_otp_record, hid]
  simp [h2, hunused]

/-- C8: two sequential `create_otp` calls for one identity: verifying the
first plaintext afterwards fails (it mismatches the superseding record's
digest, consuming one attempt), and verifying the second plaintext within
its TTL then succeeds. -/
theorem create_twice_supersedes (s : Settings) (hash : String → String)
    (db : List OTPRecord) (email p1 p2 : String) (now0 now1 now2 now3 : Nat)
    (id1 id2 : Nat)
    (hne : id1 ≠ id2) (hfresh : ∀ r ∈ db, r.id ≠ id2)
    (hp : hash p1 ≠ hash p2)
    (httl2 : ¬ now1 + s.otp_expire_minutes < now2)
    (httl3 : ¬ now1 + s.otp_expire_minutes < now3)
    (hmax : 2 ≤ s.otp_max_attempts) :
    ∃ dbA dbB,
      verify_otp s hash
        (create_otp s hash (create_otp s hash db email now0 p1 id1).2
          email now1 p2 id2).2 email p1 now2 =
        .ok ⟨false,
          some ("Invalid OTP. " ++ toString (s.otp_max_attempts - 1) ++
            " attempts remaining"),
          dbA⟩ ∧
      verify_otp s hash dbA email p2 now3 = .ok ⟨true, none, dbB⟩ := by
  have hfetch2 := fetchUnused_create s hash
    (create_otp s hash db email now0 p1 id1).2 email now1 p2 id2
  have hexp2 : ¬ (create_otp s hash (create_otp s hash db email now0 p1 id1).2
      email now1 p2 id2).1.1.expires_at < now2 := httl2
  have hlt2 : (create_otp s hash (create_otp s hash db email now0 p1 id1).2
      email now1 p2 id2).1.1.attempts < s.otp_max_attempts := by
    show 0 < s.otp_max_attempts
    omega
  have hmm : ¬ hash p1 = (create_otp s hash
      (create_otp s hash db email now0 p1 id1).2 email now1 p2 id2).1.1.otp := hp
  have h1 := verify_otp_mismatch s hash
    (create_otp s hash (create_otp s hash db email now0 p1 id1).2
      email now1 p2 id2).2 email p1 now2
    (create_otp s hash (create_otp s hash db email now0 p1 id1).2
      email now1 p2 id2).1.1 hfetch2 hexp2 hlt2 hmm
  rw [if_pos (show (create_otp s hash (create_otp s hash db email now0 p1 id1).2
    email now1 p2 id2).1.1.attempts + 1 < s.otp_max_attempts from by
      show 0 + 1 < s.otp_max_attempts
      omega)] at h1
  have hfresh1 : ∀ y ∈ (create_otp s hash db email now0 p1 id1).2, y.id ≠ id2 := by
    intro y hy
    rw [create_otp_db] at hy
    rcases List.mem_append.mp hy with hy1 | hy2
    · obtain ⟨z, hz, hzid⟩ := invalidate_id email db y hy1
      rw [hzid]
      exact hfresh z hz
    · rw [List.mem_singleton.mp hy2, create_otp_record]
      exact hne
  have hfetchA := fetch_after_update_fresh s hash
    (create_otp s hash db email now0 p1 id1).2 email now1 p2 id2
    { (create_otp s hash (create_otp s hash db email now0 p1 id1).2
        email now1 p2 id2).1.1 with
      attempts := (create_otp s hash (create_otp s hash db email now0 p1 id1).2
        email now1 p2 id2).1.1.attempts + 1 }
    (by rw [create_otp_record])
    (by simp [isUnusedFor, create_otp_record])
    hfresh1
  have hexpA : ¬ now1 + s.otp_expire_minutes < now3 := httl3
  have h2 := verify_otp_match s hash _ email p2 now3 _ hfetchA hexpA
    (show 0 + 1 < s.otp_max_attempts from by omega) rfl
  exact ⟨_, _, h1, h2⟩

/-- C8, witness: codes `"111111"` then `"222222"` issued for `"a@x.com"`
at times 0 and 1 over an empty store; verifying `"111111"` at time 2
fails with four attempts remaining, then verifying `"222222"` at time 3
succeeds. -/
theorem create_twice_supersedes_witness :
    ∃ dbA dbB,
      verify_otp defaultSettings (fun x => x)
        (create_otp defaultSettings (fun x => x)
          (create_otp defaultSettings (fun x => x) [] "a@x.com" 0 "111111" 0).2
          "a@x.com" 1 "222222" 1).2 "a@x.com" "111111" 2 =
        .ok ⟨false, some ("Invalid OTP. " ++
          toString (defaultSettings.otp_max_attempts - 1) ++ " attempts remaining"),
          dbA⟩ ∧
      verify_otp defaultSettings (fun x => x) dbA "a@x.com" "222222" 3 =
        .ok ⟨true, none, dbB⟩ :=
  create_twice_supersedes defaultSettings (fun x => x) [] "a@x.com" "111111"
    "222222" 0 1 2 3 0 1 (by decide)
    (by intro r hr; exact absurd hr (List.not_mem_nil r))
    (by decide) (by decide) (by decide) (by decide)

/-- C9: every failing SMTP outcome (timeout, authentication failure, SMTP
error, network error, any other exception) makes `send_otp_email` return
`false` rather than propagate; `AuthService.send_otp` then reports failure
while the OTP record created beforehand stays in the store, still unused —
it is not rolled back. -/
theorem send_otp_delivery_failure (s : Settings) (hash : String → String)
    (db : List OTPRecord) (email : String) (now : Nat) (plain_otp : String)
    (new_id : Nat) (outcome : SmtpOutcome)
    (hfail : outcome ≠ SmtpOutcome.sent) :
    send_otp_email outcome = false ∧
    send_otp s hash db email now plain_otp new_id outcome =
      ((false, some "Failed to send OTP email", none),
        (create_otp s hash db email now plain_otp new_id).2) ∧
    (create_otp s hash db email now plain_otp new_id).1.1 ∈
      (send_otp s hash db email now plain_otp new_id outcome).2 ∧
    ((create_otp s hash db email now plain_otp new_id).1.1).is_used = false := by
  have hfalse : send_otp_email outcome = false := by
    cases outcome
    · exact absurd rfl hfail
    all_goals rfl
  refine ⟨hfalse, ?_, ?_, rfl⟩
  · simp [send_otp, hfalse]
  · simp only [send_otp, hfalse, if_pos]
    rw [create_otp_db]
    exact List.mem_append_right _ (List.mem_singleton_self _)

/-- C4: after `create_otp` completes, the records for the requesting
identity that are still unused are exactly the newly inserted one, the new
record starts unused, and every record of the prior store that was unused
for this identity reappears marked used. -/
theorem create_otp_unique_active (s : Settings) (hash : String → String)
    (db : List OTPRecord) (email : String) (now : Nat) (plain_otp : String)
    (new_id : Nat) :
    (create_otp s hash db email now plain_otp new_id).2.filter (isUnusedFor email) =
      [(create_otp s hash db email now plain_otp new_id).1.1] ∧
    ((create_otp s hash db email now plain_otp new_id).1.1).is_used = false ∧
    ∀ x ∈ db, isUnusedFor email x = true →
      { x with is_used := true } ∈ (create_otp s hash db email now plain_otp new_id).2 := by
  refine ⟨?_, rfl, ?_⟩
  · rw [create_otp_db, List.filter_append, invalidate_filter]
    simp [create_otp_record, isUnusedFor]
  · intro x hx hun
    rw [create_otp_db]
    refine List.mem_append_left _ ?_
    simp only [_invalidate_previous_otps, List.mem_map]
    exact ⟨x, hx, by rw [if_pos hun]⟩

/-- C4, witness: creating a code for `"a@x.com"` over a store holding one
unused record for that identity leaves exactly the new record active and
the old record present but used. -/
theorem create_otp_unique_active_witness :
    (create_otp defaultSettings (fun x => x)
      [⟨5, "a@x.com", "oldd", 90, 1, false, 0⟩] "a@x.com" 0 "123456" 7).2.filter
        (isUnusedFor "a@x.com") =
      [(create_otp defaultSettings (fun x => x)
        [⟨5, "a@x.com", "oldd", 90, 1, false, 0⟩] "a@x.com" 0 "123456" 7).1.1] ∧
    (⟨5, "a@x.com", "oldd", 90, 1, true, 0⟩ : OTPRecord) ∈
      (create_otp defaultSettings (fun x => x)
        [⟨5, "a@x.com", "oldd", 90, 1, false, 0⟩] "a@x.com" 0 "123456" 7).2 :=
  ⟨(create_otp_unique_active defaultSettings (fun x => x)
      [⟨5, "a@x.com", "oldd", 90, 1, false, 0⟩] "a@x.com" 0 "123456" 7).1,
   (create_otp_unique_active defaultSettings (fun x => x)
      [⟨5, "a@x.com", "oldd", 90, 1, false, 0⟩] "a@x.com" 0 "123456" 7).2.2
     ⟨5, "a@x.com", "oldd", 90, 1, false, 0⟩ (by decide) (by decide)⟩

lemma consumed_fetch_none (s : Settings) (hash : String → String)
    (db : List OTPRecord) (email : String) (now : Nat) (plain_otp : String)
    (new_id : Nat) (r2 : OTPRecord)
    (hid : r2.id = new_id) (hused : r2.is_used = true) :
    fetchUnused
      (updateRecord (create_otp s hash db email now plain_otp new_id).2 r2)
      email = .ok none := by
  refine fetchUnused_eq_none _ _ ?_
  intro x hx
  simp only [updateRecord, List.mem_map] at hx
  obtain ⟨y, hy, rfl⟩ := hx
  by_cases h : y.id = r2.id
  · simp [h, isUnusedFor, hused]
  · rw [create_otp_db] at hy
    rcases List.mem_append.mp hy with hy1 | hy2
    · simpa [h] using invalidate_elem email db y hy1
    · have : y.id = r2.id := by
        rw [List.mem_singleton.mp hy2, create_otp_record, hid]
      exact absurd this h

/-- C5: for every identity and every prior store, the code just issued by
`create_otp` verifies successfully within its TTL, and once consumed the
same plaintext never verifies again: every later call reports that no
valid OTP exists, leaving the store unchanged. -/
theorem verify_once_then_no_replay (s : Settings) (hash : String → String)
    (db : List OTPRecord) (email plain_otp : String) (now1 now2 now3 : Nat)
    (new_id : Nat) (hmax : 0 < s.otp_max_attempts)
    (httl : ¬ now1 + s.otp_expire_minutes < now2) :
    ∃ db2,
      verify_otp s hash (create_otp s hash db email now1 plain_otp new_id).2
        email plain_otp now2 = .ok ⟨true, none, db2⟩ ∧
      verify_otp s hash db2 email plain_otp now3 =
        .ok ⟨false, some "No valid OTP found for this email", db2⟩ := by
  have hfetch := fetchUnused_create s hash db email now1 plain_otp new_id
  have hexp : ¬ (create_otp s hash db email now1 plain_otp new_id).1.1.expires_at < now2 :=
    httl
  have hlt : (create_otp s hash db email now1 plain_otp new_id).1.1.attempts <
      s.otp_max_attempts := by
    show 0 < s.otp_max_attempts
    omega
  have h1 := verify_otp_match s hash
    (create_otp s hash db email now1 plain_otp new_id).2 email plain_otp now2
    (create_otp s hash db email now1 plain_otp new_id).1.1 hfetch hexp hlt rfl
  rw [updateRecord_twice (create_otp s hash db email now1 plain_otp new_id).2
    { (create_otp s hash db email now1 plain_otp new_id).1.1 with
      attempts := (create_otp s hash db email now1 plain_otp new_id).1.1.attempts + 1 }
    { (create_otp s hash db email now1 plain_otp new_id).1.1 with
      attempts := (create_otp s hash db email now1 plain_otp new_id).1.1.attempts + 1,
      is_used := true } rfl] at h1
  refine ⟨_, h1, ?_⟩
  have hnone := consumed_fetch_none s hash db email now1 plain_otp new_id
    { (create_otp s hash db email now1 plain_otp new_id).1.1 with
      attempts := (create_otp s hash db email now1 plain_otp new_id).1.1.attempts + 1,
      is_used := true } rfl rfl
  exact verify_otp_none s hash _ email plain_otp now3 hnone

/-- C5, witness: issuing `"123456"` for `"a@x.com"` at time 0 over an
empty store, verifying it at time 5 (inside the 10-minute TTL) and again
at time 8. -/
theorem verify_once_then_no_replay_witness :
    ∃ db2,
      verify_otp defaultSettings (fun x => x)
        (create_otp defaultSettings (fun x => x) [] "a@x.com" 0 "123456" 7).2
        "a@x.com" "123456" 5 = .ok ⟨true, none, db2⟩ ∧
      verify_otp defaultSettings (fun x => x) db2 "a@x.com" "123456" 8 =
        .ok ⟨false, some "No valid OTP found for this email", db2⟩ :=
  verify_once_then_no_replay defaultSettings (fun x => x) [] "a@x.com" "123456"
    0 5 8 7 (by decide) (by decide)

/-- C9, witness: a timeout outcome for identity `"a@x.com"` starting from
an empty store. -/
theorem send_otp_delivery_failure_witness :
    send_otp_email SmtpOutcome.timeout = false ∧
    send_otp defaultSettings (fun x => x) [] "a@x.com" 0 "123456" 7
        SmtpOutcome.timeout =
      ((false, some "Failed to send OTP email", none),
        (create_otp defaultSettings (fun x => x) [] "a@x.com" 0 "123456" 7).2) ∧
    (create_otp defaultSettings (fun x => x) [] "a@x.com" 0 "123456" 7).1.1 ∈
      (send_otp defaultSettings (fun x => x) [] "a@x.com" 0 "123456" 7
        SmtpOutcome.timeout).2 ∧
    ((create_otp defaultSettings (fun x => x) [] "a@x.com" 0 "123456" 7).1.1).is_used =
      false :=
  send_otp_delivery_failure defaultSettings (fun x => x) [] "a@x.com" 0 "123456" 7
    SmtpOutcome.timeout (by decide)

/-- C6: starting from a fresh record (`attempts = 0`, unexpired), each of
the first `max_attempts` wrong-code calls fails — reporting the remaining
attempts while some remain and the attempts-exceeded mismatch reason on
the last one — the store after `k` such calls holds the record at
`attempts = k`, used once `k` reaches the maximum, and a following call
with the correct code also fails: the record was marked used when the
counter reached the maximum, so no valid OTP remains. -/
theorem verify_wrong_code_exhaustion (s : Settings) (hash : String → String)
    (w p : String) (now : Nat) (r : OTPRecord)
    (hu : r.is_used = false) (ha : r.attempts = 0)
    (hexp : ¬ r.expires_at < now)
    (hw : hash w ≠ r.otp) (hp : hash p = r.otp)
    (hm : 0 < s.otp_max_attempts) :
    (∀ k, k < s.otp_max_attempts →
      verify_otp s hash [runRec r s.otp_max_attempts k] r.email w now =
        .ok ⟨false,
          some (if k + 1 < s.otp_max_attempts
            then "Invalid OTP. " ++ toString (s.otp_max_attempts - (k + 1)) ++
              " attempts remaining"
            else "Invalid OTP. Maximum attempts exceeded"),
          [runRec r s.otp_max_attempts (k + 1)]⟩) ∧
    (∀ k, k ≤ s.otp_max_attempts →
      afterCalls s hash r.email w now k [r] =
        .ok [runRec r s.otp_max_attempts k]) ∧
    verify_otp s hash [runRec r s.otp_max_attempts s.otp_max_attempts]
      r.email p now =
      .ok ⟨false, some "No valid OTP found for this email",
        [runRec r s.otp_max_attempts s.otp_max_attempts]⟩ := by
  have h0 : runRec r s.otp_max_attempts 0 = r := by
    obtain ⟨i, e, o, x, a, u, c⟩ := r
    simp only [runRec, OTPRecord.mk.injEq, and_true, true_and] at *
    refine ⟨ha.symm, ?_⟩
    rw [hu]
    rw [decide_eq_false_iff_not]
    omega
  refine ⟨?_, ?_, ?_⟩
  · intro k hk
    exact verify_wrong_step s hash w now r hexp hw k hk
  · intro k hk
    have h := afterCalls_wrong s hash w now r hexp hw k 0 (by omega)
    rw [h0, Nat.zero_add] at h
    exact h
  · have hused : ∀ x ∈ [runRec r s.otp_max_attempts s.otp_max_attempts],
        isUnusedFor r.email x = false := by
      intro x hx
      rw [List.mem_singleton.mp hx]
      simp [isUnusedFor, runRec]
    exact verify_otp_none s hash _ r.email p now (fetchUnused_eq_none _ _ hused)

/-- C6, witness: the fresh record for `"a@x.com"` with digest of
`"123456"`, wrong code `"000000"`, five attempts at the default maximum. -/
theorem verify_wrong_code_exhaustion_witness :
    (∀ k, k < defaultSettings.otp_max_attempts →
      verify_otp defaultSettings (fun x => x)
        [runRec ⟨0, "a@x.com", "123456", 100, 0, false, 0⟩
          defaultSettings.otp_max_attempts k] "a@x.com" "000000" 50 =
        .ok ⟨false,
          some (if k + 1 < defaultSettings.otp_max_attempts
            then "Invalid OTP. " ++
              toString (defaultSettings.otp_max_attempts - (k + 1)) ++
              " attempts remaining"
            else "Invalid OTP. Maximum attempts exceeded"),
          [runRec ⟨0, "a@x.com", "123456", 100, 0, false, 0⟩
            defaultSettings.otp_max_attempts (k + 1)]⟩) ∧
    (∀ k, k ≤ defaultSettings.otp_max_attempts →
      afterCalls defaultSettings (fun x => x) "a@x.com" "000000" 50 k
        [⟨0, "a@x.com", "123456", 100, 0, false, 0⟩] =
        .ok [runRec ⟨0, "a@x.com", "123456", 100, 0, false, 0⟩
          defaultSettings.otp_max_attempts k]) ∧
    verify_otp defaultSettings (fun x => x)
      [runRec ⟨0, "a@x.com", "123456", 100, 0, false, 0⟩
        defaultSettings.otp_max_attempts defaultSettings.otp_max_attempts]
      "a@x.com" "123456" 50 =
      .ok ⟨false, some "No valid OTP found for this email",
        [runRec ⟨0, "a@x.com", "123456", 100, 0, false, 0⟩
          defaultSettings.otp_max_attempts defaultSettings.otp_max_attempts]⟩ :=
  verify_wrong_code_exhaustion defaultSettings (fun x => x) "000000" "123456" 50
    ⟨0, "a@x.com", "123456", 100, 0, false, 0⟩ rfl rfl (by decide) (by decide)
    rfl (by decide)

end AstroServer
